import Mathlib

/-!
Shallow embedding of `src/ThreadPool.cpp` (repository `ThreadPool`).

The pool's own code (`ThreadPool.cpp`) is embedded function by function.
The two collaborators (`Thread`, `Queue`) are external: a worker is
modelled by the Boolean answers it gives to the pool (`free()`,
`configure(...)`, `start()`), and the task queue by a Lean list (its
operations used here are push one, push many, front, pop, empty, size).

`ThreadPool::size_type` values are C++ unsigned integers of width 64
(`std::size_t` arithmetic on an LP64 platform); subtraction therefore
wraps modulo `2^64`.  `W` below is that modulus.  The same wrap occurs
with `2^32` on a 32-bit platform; nothing proved here depends on the
particular width beyond `W > 1`.

Tasks are `(process, callback)` function pairs that the pool never
inspects; they are modelled by an opaque identifier.
-/

namespace ThreadPool

/-- Width modulus of `size_type` (`std::size_t`, 64-bit). -/
def W : Nat := 2 ^ 64

/-- A task unit: the pool treats `TaskPair` (a pair of `std::function`)
as opaque data, so it is modelled by an identifier. -/
abbrev TaskPair := Nat

/-- Observable behaviour of one `Thread` collaborator at the moment the
Manager Loop visits it: the results of `thread->free()`,
`thread->configure(...)` and `thread->start()`. -/
structure Worker where
  free : Bool
  configureOk : Bool
  startOk : Bool
deriving Repr, DecidableEq

/-- A freshly constructed worker (`std::make_unique<Thread>(...)`): idle,
with no configured task.  Only its presence in the table matters to the
claims; its Boolean answers are those of an idle assignable worker. -/
def freshWorker : Worker := ⟨true, true, true⟩

/-- `ThreadPoolStructure` (ThreadPool.cpp lines 10-28) restricted to the
fields the claims observe.  `threadTable` is the vector of workers;
`detached` records whether `data->thread.detach()` has run (destroy,
line 186).  `mutex` and the queue's mutex are modelled separately as a
lock-event trace (see `LockEvent` below); `signal.notify_one()` calls
are returned as explicit Booleans / events by each operation. -/
structure Pool where
  threadTable : List Worker
  taskQueue : List TaskPair
  closed : Bool
  maxThreads : Nat
  freeThreads : Nat
  detached : Bool
deriving Repr, DecidableEq

/-- `ThreadPool::setMaxThreads` (lines 90-93):
`data->maxThreads = maxThreads > 0 ? maxThreads : 0x01;`. -/
def setMaxThreads (maxThreads : Nat) : Nat :=
  if maxThreads > 0 then maxThreads else 1

/-- The constructor `ThreadPool::ThreadPool(threads, maxThreads)`
(lines 31-58): clamps `maxThreads` via `setMaxThreads`, then
`threads = std::min(threads, maxThreads)` (line 42 — the *parameter*
`maxThreads`, not the clamped stored value), builds `threads` workers,
and sets `freeThreads = threadTable.size()`.  There is no failure
path. -/
def mkThreadPool (threads maxThreads : Nat) : Pool :=
  let builtCount := min threads maxThreads
  { threadTable := List.replicate builtCount freshWorker
    taskQueue := []
    closed := false
    maxThreads := setMaxThreads maxThreads
    freeThreads := builtCount
    detached := false }

/-- `ThreadPool::setThreads(threads)` (lines 102-130).  Returns the new
state, the Boolean result, and whether `signal.notify_one()` was called.

`auto number = threads - data->threadTable.size();` — both operands of
the subtraction convert to `std::size_t`, so `number` has unsigned type
and the subtraction wraps modulo `W`.  Consequently the shrink branch
`else if (number < 0)` (line 125) is unreachable: a shrink request with
`threads < size` yields a huge positive `number` and takes the growth
branch.  `data->freeThreads += number` is `std::atomic<size_type>`
arithmetic, also modulo `W`. -/
def setThreads (p : Pool) (threads : Nat) : Pool × Bool × Bool :=
  if threads > p.maxThreads then (p, false, false)
  else
    let number := (threads + W - p.threadTable.length) % W
    if number > 0 then
      let table := p.threadTable ++ List.replicate number freshWorker
      let freeAfter := (p.freeThreads + number) % W
      ({ p with threadTable := table, freeThreads := freeAfter },
        true, freeAfter == number)
    else (p, false, false)

/-- `ThreadPool::getThreads` (lines 133-137). -/
def getThreads (p : Pool) : Nat := p.threadTable.length

/-- `ThreadPool::getMaxThreads` (lines 96-99). -/
def getMaxThreads (p : Pool) : Nat := p.maxThreads

/-- `ThreadPool::getFreeThreads` (lines 140-143). -/
def getFreeThreads (p : Pool) : Nat := p.freeThreads

/-- `ThreadPool::getTasks` (lines 146-149). -/
def getTasks (p : Pool) : Nat := p.taskQueue.length

/-- Single-task `ThreadPool::pushTask` (lines 152-159 and 162-167; the
two overloads differ only in how the pair is built): push, then
`if (data->taskQueue->size() == 0x01) data->signal.notify_one();`.
The second component reports whether `notify_one` was called. -/
def pushTask (p : Pool) (task : TaskPair) : Pool × Bool :=
  let q := p.taskQueue ++ [task]
  ({ p with taskQueue := q }, q.length == 1)

/-- Batch `ThreadPool::pushTask(std::list<TaskPair>&)` (lines 170-176):
`auto size = tasks.size(); push(tasks);
if (data->taskQueue->size() == size) data->signal.notify_one();`. -/
def pushTaskList (p : Pool) (tasks : List TaskPair) : Pool × Bool :=
  let size := tasks.length
  let q := p.taskQueue ++ tasks
  ({ p with taskQueue := q }, q.length == size)

/-- `ThreadPool::destroy` (lines 179-189): if already closed, return at
once; otherwise set `closed`, detach the manager thread, and call
`signal.notify_one()` once.  The second component counts the
`notify_one` calls made by this invocation. -/
def destroy (p : Pool) : Pool × Nat :=
  if p.closed then (p, 0)
  else ({ p with closed := true, detached := true }, 1)

/-- The completion callback installed by the constructor (lines 46-50):
`if (free && ++data->freeThreads == 0x01) data->signal.notify_one();`.
The increment is atomic `size_type` arithmetic, modulo `W`. -/
def callback (p : Pool) (free : Bool) : Pool × Bool :=
  if free then
    let f := (p.freeThreads + 1) % W
    ({ p with freeThreads := f }, f == 1)
  else (p, false)

/-- One dispatch attempt of the Manager Loop, lines 251-275 of
`ThreadPool::execute`, for one visited worker `w`, with the queue
contents `q` as established by the inner wait (the wait at lines
256-267 exits only with the queue non-empty or the pool closed; the
non-empty case is the one in which line 269 runs).  On
`thread->configure(front) && thread->start()`: pop the front,
`--data->freeThreads`; otherwise the queue and the counter are left
unchanged.  The third component reports whether a dispatch happened. -/
def dispatchStep (w : Worker) (q : List TaskPair) (freeThreads : Nat) :
    List TaskPair × Nat × Bool :=
  if w.free then
    if w.configureOk && w.startOk then (q.tail, freeThreads - 1, true)
    else (q, freeThreads, false)
  else (q, freeThreads, false)

/-- The dispatch scan of the Manager Loop, lines 248-277: iterate over
the worker table while `data->freeThreads && !getClosed(data)`, running
`dispatchStep` on each worker.  Returns the final queue and counter. -/
def dispatchScan (closed : Bool) :
    List Worker → List TaskPair → Nat → List TaskPair × Nat
  | [], q, free => (q, free)
  | w :: ws, q, free =>
    if free ≠ 0 ∧ closed = false then
      let r := dispatchStep w q free
      dispatchScan closed ws r.1 r.2.1
    else (q, free)

/-- The operations that touch a pool after construction: the facade
calls, the worker completion callback, and one manager dispatch
attempt.  (`ThreadPool::execute` only ever reads `closed`; its queue
and counter effects are those of `dispatchStep`.) -/
inductive Op where
  | setThreads (n : Nat)
  | pushOne (t : TaskPair)
  | pushMany (ts : List TaskPair)
  | destroy
  | workerCallback (free : Bool)
  | managerDispatch (w : Worker)
deriving Repr

/-- State transition of one operation (the state component of the
corresponding embedded function). -/
def step (p : Pool) : Op → Pool
  | .setThreads n => (setThreads p n).1
  | .pushOne t => (pushTask p t).1
  | .pushMany ts => (pushTaskList p ts).1
  | .destroy => (destroy p).1
  | .workerCallback free => (callback p free).1
  | .managerDispatch w =>
    let r := dispatchStep w p.taskQueue p.freeThreads
    { p with taskQueue := r.1, freeThreads := r.2.1 }

/-! ### Lock traces

The pool has two mutexes: `data->mutex` (`tableLock`, guarding the
worker table) and `data->taskQueue->mutex()` (`queueLock`, the queue's
own mutex).  To settle the claims about their use, the lock and unlock
instructions executed by each actor are recorded as event lists read
off the source, and the pair of held locks is folded over them. -/

/-- A lock or unlock of one of the two mutexes, by one actor. -/
inductive LockEvent where
  | acqTable | relTable | acqQueue | relQueue
deriving Repr, DecidableEq

/-- Which of the two locks an actor currently holds. -/
structure Held where
  table : Bool
  queue : Bool
deriving Repr, DecidableEq

/-- Effect of one lock event on the held set. -/
def applyEvent (h : Held) : LockEvent → Held
  | .acqTable => { h with table := true }
  | .relTable => { h with table := false }
  | .acqQueue => { h with queue := true }
  | .relQueue => { h with queue := false }

/-- All held-lock states an actor passes through while executing a
sequence of lock events, starting from holding nothing. -/
def heldStates (events : List LockEvent) : List Held :=
  List.scanl applyEvent ⟨false, false⟩ events

/-- Both locks held at once. -/
def bothHeld (h : Held) : Bool := h.table && h.queue

/-- Lock events of one `ThreadPool::execute` iteration that performs one
dispatch (lines 234-278, with one idle worker visited and the queue
non-empty on arrival, so neither wait blocks):
`threadLocker.lock()` (line 234); `taskLocker.lock()` (line 253);
`taskLocker.unlock()` (line 275); `threadLocker.unlock()` (line 278).
Line 253 runs with `threadLocker` still locked — no unlock of
`data->mutex` occurs between lines 234 and 278 (the wait at line 240,
when taken, reacquires the lock before returning, prior to line 253). -/
def managerIterEvents : List LockEvent :=
  [.acqTable, .acqQueue, .relQueue, .relTable]

/-- Lock events of a producer call (`pushTask`, lines 152-176).
Modelled from the spec: the `Queue` collaborator's `push` is not under
`src/`; per the spec, producers touch only the queue's own lock
(`Queue::push` locks `data->taskQueue->mutex()` internally and the
producer never takes `data->mutex`). -/
def producerEvents : List LockEvent :=
  [.acqQueue, .relQueue]

/-- Lock events of a capacity-setting call (`setThreads`, lines
108-116): `std::unique_lock<std::mutex> locker(data->mutex)` (line 111),
`locker.unlock()` (line 116); the queue's mutex is never taken. -/
def setThreadsEvents : List LockEvent :=
  [.acqTable, .relTable]

/-! ### Theorems -/

/-- C6: construction never fails; it clamps capacity to at least 1,
builds `min(initialThreads, maxThreads)` workers, sets the idle count
equal to the number of workers built, and the resulting worker count
does not exceed the capacity.  (`mkThreadPool` is a total function:
there is no failure path.) -/
theorem mkThreadPool_clamps (threads maxThreads : Nat) :
    1 ≤ getMaxThreads (mkThreadPool threads maxThreads) ∧
    getThreads (mkThreadPool threads maxThreads) = min threads maxThreads ∧
    getFreeThreads (mkThreadPool threads maxThreads) =
      getThreads (mkThreadPool threads maxThreads) ∧
    getThreads (mkThreadPool threads maxThreads) ≤
      getMaxThreads (mkThreadPool threads maxThreads) := by
  simp only [mkThreadPool, getMaxThreads, getThreads, getFreeThreads,
    setMaxThreads, List.length_replicate]
  refine ⟨?_, trivial, trivial, ?_⟩ <;> split <;> omega

/-- C10: pushing an empty batch leaves the pool unchanged; it still
calls `notify_one` exactly when the queue was empty at the time of the
call (because `taskQueue->size() == 0` equals the batch size `0`), and
does not notify when the queue was non-empty. -/
theorem pushTaskList_empty_batch (p : Pool) :
    (pushTaskList p []).1 = p ∧
    (p.taskQueue = [] → (pushTaskList p []).2 = true) ∧
    (p.taskQueue ≠ [] → (pushTaskList p []).2 = false) := by
  refine ⟨by simp [pushTaskList], ?_, ?_⟩ <;>
    intro h <;> simp [pushTaskList, h]

/-- C10 witness: a concrete pool with an empty queue, where the empty
batch notifies and the state is unchanged. -/
theorem pushTaskList_empty_batch_witness :
    (pushTaskList (mkThreadPool 0 1) []).1 = mkThreadPool 0 1 ∧
    (pushTaskList (mkThreadPool 0 1) []).2 = true :=
  ⟨(pushTaskList_empty_batch (mkThreadPool 0 1)).1,
    (pushTaskList_empty_batch (mkThreadPool 0 1)).2.1 rfl⟩

/-- C5 counterexample: pushing the empty batch onto a pool whose queue
is empty issues a wake (`notify_one` is called) although the queue
never transitions from empty to non-empty — it is still empty after
the call.  The claim's "woken ... if and only if the queue's size
transitions from empty to non-empty" is therefore false as stated. -/
theorem empty_batch_wakes_without_transition :
    (pushTaskList (mkThreadPool 1 1) []).2 = true ∧
    (mkThreadPool 1 1).taskQueue = [] ∧
    (pushTaskList (mkThreadPool 1 1) []).1.taskQueue = [] := by
  refine ⟨rfl, rfl, rfl⟩

/-- C5 amended: a single push wakes the Manager Loop exactly once iff
the queue was empty immediately before the push, and likewise for a
batch push; for a single push and for a non-empty batch this coincides
with the empty-to-non-empty transition, while an empty batch pushed
onto an empty queue also wakes once despite no transition.  The queue
is extended by exactly the pushed tasks, in order. -/
theorem push_wake_iff_queue_was_empty (p : Pool) (t : TaskPair)
    (ts : List TaskPair) :
    ((pushTask p t).2 = true ↔ p.taskQueue = []) ∧
    ((pushTaskList p ts).2 = true ↔ p.taskQueue = []) ∧
    (pushTask p t).1.taskQueue = p.taskQueue ++ [t] ∧
    (pushTaskList p ts).1.taskQueue = p.taskQueue ++ ts := by
  refine ⟨?_, ?_, rfl, rfl⟩ <;>
    simp [pushTask, pushTaskList, List.length_eq_zero]

/-- C8: `destroy` is idempotent — once the pool is closed any further
call returns immediately, changing nothing and issuing no wake, so the
observable state after two calls equals the state after one; the first
call on an open pool sets `closed`, detaches the manager thread, and
calls `notify_one` exactly once. -/
theorem destroy_idempotent (p : Pool) :
    destroy (destroy p).1 = ((destroy p).1, 0) ∧
    (p.closed = false →
      (destroy p).1 = { p with closed := true, detached := true } ∧
      (destroy p).2 = 1) := by
  cases hc : p.closed <;> simp [destroy, hc]

/-- C8 witness: destroying a freshly constructed pool once closes and
detaches it with one wake; a second destroy is the identity. -/
theorem destroy_idempotent_witness :
    destroy (destroy (mkThreadPool 0 1)).1 = ((destroy (mkThreadPool 0 1)).1, 0) ∧
    (destroy (mkThreadPool 0 1)).2 = 1 :=
  ⟨(destroy_idempotent (mkThreadPool 0 1)).1,
    ((destroy_idempotent (mkThreadPool 0 1)).2 rfl).2⟩

/-- C3: `setThreads n` fails when `n` exceeds the capacity; and when
`workerCount < n ≤ capacity` it returns true, appends exactly
`n - workerCount` new workers, increases the idle count by that same
amount, and calls `notify_one` exactly when the idle count was zero
immediately before the increase.  The side conditions say the counters
are in their reachable ranges (`freeThreads ≤ workerCount` and
`capacity < 2^64`, the range of `size_type`). -/
theorem setThreads_growth (p : Pool) (n : Nat)
    (hfree : p.freeThreads ≤ p.threadTable.length)
    (hmax : p.maxThreads < W) :
    (n > getMaxThreads p → setThreads p n = (p, false, false)) ∧
    (getThreads p < n → n ≤ getMaxThreads p →
      (setThreads p n).2.1 = true ∧
      getThreads (setThreads p n).1 = getThreads p + (n - getThreads p) ∧
      getFreeThreads (setThreads p n).1 =
        getFreeThreads p + (n - getThreads p) ∧
      ((setThreads p n).2.2 = true ↔ getFreeThreads p = 0)) := by
  constructor
  · intro h
    simp [setThreads, getMaxThreads] at h ⊢
    omega
  · intro hlt hle
    simp only [getThreads, getMaxThreads, getFreeThreads] at hlt hle ⊢
    have hnW : n < W := lt_of_le_of_lt hle hmax
    have hnum : (n + W - p.threadTable.length) % W =
        n - p.threadTable.length := by
      have h1 : n + W - p.threadTable.length =
          (n - p.threadTable.length) + W := by omega
      rw [h1, Nat.add_mod_right, Nat.mod_eq_of_lt (by omega)]
    have hfa : (p.freeThreads + (n - p.threadTable.length)) % W =
        p.freeThreads + (n - p.threadTable.length) :=
      Nat.mod_eq_of_lt (by omega)
    simp only [setThreads, hnum, hfa]
    rw [if_neg (by omega), if_pos (by omega)]
    refine ⟨rfl, ?_, rfl, ?_⟩
    · simp [List.length_append]
    · simp only [beq_iff_eq]
      omega

/-- C3 witness: a pool built with one worker and capacity 4 grows to 3
workers. -/
theorem setThreads_growth_witness :
    (3 > getMaxThreads (mkThreadPool 1 4) →
      setThreads (mkThreadPool 1 4) 3 = (mkThreadPool 1 4, false, false)) ∧
    (getThreads (mkThreadPool 1 4) < 3 →
      3 ≤ getMaxThreads (mkThreadPool 1 4) →
      (setThreads (mkThreadPool 1 4) 3).2.1 = true ∧
      getThreads (setThreads (mkThreadPool 1 4) 3).1 =
        getThreads (mkThreadPool 1 4) +
          (3 - getThreads (mkThreadPool 1 4)) ∧
      getFreeThreads (setThreads (mkThreadPool 1 4) 3).1 =
        getFreeThreads (mkThreadPool 1 4) +
          (3 - getThreads (mkThreadPool 1 4)) ∧
      ((setThreads (mkThreadPool 1 4) 3).2.2 = true ↔
        getFreeThreads (mkThreadPool 1 4) = 0)) :=
  setThreads_growth (mkThreadPool 1 4) 3 (by decide)
    (by norm_num [mkThreadPool, setMaxThreads, W])

/-- Helper for C9: no single operation resets `closed` once it is
true.  Every branch of every embedded operation either leaves `closed`
unchanged or sets it to true (`destroy`). -/
theorem step_preserves_closed (p : Pool) (op : Op) (h : p.closed = true) :
    (step p op).closed = true := by
  cases op with
  | setThreads n =>
    simp only [step, setThreads]
    split
    · exact h
    · split <;> exact h
  | pushOne t => exact h
  | pushMany ts => exact h
  | destroy => simp [step, ThreadPool.destroy, h]
  | workerCallback free =>
    simp only [step, callback]
    split <;> exact h
  | managerDispatch w => exact h

/-- C9: the `closed` flag is terminal — for every sequence of
operations (facade calls, worker callbacks, manager dispatches), once
`closed` is true it stays true.  The flag is written only by the
constructor (before any operation runs) and by `destroy`, which only
sets it to true. -/
theorem closed_terminal (p : Pool) (ops : List Op) (h : p.closed = true) :
    (List.foldl step p ops).closed = true := by
  induction ops generalizing p with
  | nil => exact h
  | cons op ops ih =>
    exact ih (step p op) (step_preserves_closed p op h)

/-- C9 witness: after destroying a fresh pool, a subsequent submission
leaves the pool closed. -/
theorem closed_terminal_witness :
    (List.foldl step (destroy (mkThreadPool 0 1)).1 [Op.pushOne 0]).closed
      = true :=
  closed_terminal (destroy (mkThreadPool 0 1)).1 [Op.pushOne 0] (by decide)

/-- C7: one dispatch attempt of the Manager Loop at an idle worker
(`w.free`, loop guard `freeThreads ≠ 0`, queue non-empty as
established by the inner wait): if `configure && start` succeeds,
exactly the front task is popped and the idle count is decremented by
exactly one, and the scan continues with the remaining workers on the
shortened queue; if it fails, the queue and the counter are unchanged
and the scan continues with the next worker. -/
theorem dispatch_attempt_spec (w : Worker) (ws : List Worker)
    (t : TaskPair) (rest : List TaskPair) (free : Nat)
    (hidle : w.free = true) (hn : free ≠ 0) :
    ((w.configureOk && w.startOk) = true →
      dispatchStep w (t :: rest) free = (rest, free - 1, true) ∧
      (free - 1) + 1 = free ∧
      dispatchScan false (w :: ws) (t :: rest) free =
        dispatchScan false ws rest (free - 1)) ∧
    ((w.configureOk && w.startOk) = false →
      dispatchStep w (t :: rest) free = (t :: rest, free, false) ∧
      dispatchScan false (w :: ws) (t :: rest) free =
        dispatchScan false ws (t :: rest) free) := by
  constructor <;> intro hco
  · simp [dispatchStep, dispatchScan, hidle, hco, hn]
    omega
  · simp [dispatchStep, dispatchScan, hidle, hco, hn]

/-- C7 witness: a single idle accepting worker takes the only queued
task; the counter drops from 1 to 0. -/
theorem dispatch_attempt_spec_witness :
    dispatchStep ⟨true, true, true⟩ [(0 : TaskPair)] 1 = ([], 0, true) ∧
    dispatchScan false [⟨true, true, true⟩] [(0 : TaskPair)] 1 =
      dispatchScan false [] [] 0 :=
  ⟨((dispatch_attempt_spec ⟨true, true, true⟩ [] 0 [] 1 rfl
      (by decide)).1 rfl).1,
    ((dispatch_attempt_spec ⟨true, true, true⟩ [] 0 [] 1 rfl
      (by decide)).1 rfl).2.2⟩

/-- Helper: in the growth branch (`number > 0`), the new worker count
is the old one plus `number`. -/
theorem setThreads_table (p : Pool) (n : Nat) (h1 : ¬ n > p.maxThreads)
    (h2 : (n + W - p.threadTable.length) % W > 0) :
    getThreads (setThreads p n).1 =
      p.threadTable.length + (n + W - p.threadTable.length) % W := by
  simp only [setThreads, getThreads]
  rw [if_neg h1, if_pos h2]
  simp [List.length_append]

/-- C1: evaluation of the shrink request `setThreads 1` on a pool with
2 workers and capacity 4.  The claim says it returns false and leaves
the worker count unchanged; instead `threads - threadTable.size()` is
computed in unsigned `size_type` arithmetic, wraps to `2^64 - 1`, and
the call takes the growth branch: it returns true and attempts to
append `2^64 - 1` workers, leaving a table of `2^64 + 1` entries.  The
dead `else if (number < 0)` branch (line 125) and its comment show the
intended behaviour was to return false. -/
theorem setThreads_shrink_underflow :
    getThreads (mkThreadPool 2 4) = 2 ∧
    (setThreads (mkThreadPool 2 4) 1).2.1 = true ∧
    getThreads (setThreads (mkThreadPool 2 4) 1).1 = W + 1 := by
  have h1 : ¬ 1 > (mkThreadPool 2 4).maxThreads := by decide
  have hlen : (mkThreadPool 2 4).threadTable.length = 2 := by decide
  have h2 : (1 + W - (mkThreadPool 2 4).threadTable.length) % W > 0 := by
    rw [hlen]; norm_num [W]
  refine ⟨by decide, by decide, ?_⟩
  rw [setThreads_table _ _ h1 h2, hlen]
  norm_num [W]

/-- C4: the invariant `workerCount() <= capacity()` is violated
immediately after a `setThreads` call that returned true: on the pool
built with 2 workers and capacity 4, the shrink request `setThreads 1`
underflows into the growth branch, returns true, and leaves
`workerCount() = 2^64 + 1 > 4 = capacity()`. -/
theorem capacity_invariant_violated :
    (setThreads (mkThreadPool 2 4) 1).2.1 = true ∧
    getMaxThreads (setThreads (mkThreadPool 2 4) 1).1 <
      getThreads (setThreads (mkThreadPool 2 4) 1).1 := by
  have h1 : ¬ 1 > (mkThreadPool 2 4).maxThreads := by decide
  have hlen : (mkThreadPool 2 4).threadTable.length = 2 := by decide
  have h2 : (1 + W - (mkThreadPool 2 4).threadTable.length) % W > 0 := by
    rw [hlen]; norm_num [W]
  have hmax : getMaxThreads (setThreads (mkThreadPool 2 4) 1).1 = 4 := by
    simp only [setThreads, getMaxThreads]
    rw [if_neg h1, if_pos h2]
    rfl
  refine ⟨by decide, ?_⟩
  rw [hmax, setThreads_table _ _ h1 h2, hlen]
  norm_num [W]

/-- C2 counterexample: the Manager Loop iteration (lines 234-278) locks
the queue's mutex at line 253 while `data->mutex` is still locked from
line 234, so one actor holds `tableLock` and `queueLock` at the same
time — the claim that the two locks are never held simultaneously is
false on the code. -/
theorem manager_both_locks_held :
    (heldStates managerIterEvents).any bothHeld = true := by decide

/-- C2 amended: the Manager Loop does hold both locks simultaneously
during the dispatch phase, but the nesting is strict — whenever it
holds `queueLock` it already holds `tableLock` (table acquired first,
queue released first) — and the other actors each touch only one lock:
producers only `queueLock`, capacity-setting callers only
`tableLock`. -/
theorem lock_discipline :
    ((heldStates managerIterEvents).any bothHeld = true) ∧
    ((heldStates managerIterEvents).all fun h => !h.queue || h.table) = true ∧
    ((heldStates producerEvents).all fun h => !h.table) = true ∧
    ((heldStates setThreadsEvents).all fun h => !h.queue) = true := by
  refine ⟨by decide, by decide, by decide, by decide⟩

end ThreadPool
